import Mathlib

/-!
Shallow embedding of the Student Record Engine of `backend/main.py`
(College-Voice-Assistant): the record data model, the admin mutation
operations with their derived-aggregate recomputations, the keyword
intent classifier, the day-extraction helper and the voice query
orchestrator.  Python ints are modelled as `Int`, Python floats as
exact rationals (`ℚ`), Python dicts as insertion-ordered association
lists, and the ambient clock (`datetime.now()`) as explicit
parameters.  `round` is Python 3 rounding: nearest integer, ties to
even.
-/

namespace CollegeVoice

/-! ### Association-list helpers (Python dict operations) -/

/-- Lookup in an insertion-ordered association list (`d[k]` / `d.get(k)`). -/
def lookupKey {α : Type} (k : String) : List (String × α) → Option α
  | [] => none
  | p :: rest => if p.1 = k then some p.2 else lookupKey k rest

/-- Membership test (`k in d`). -/
def containsKey {α : Type} (k : String) : List (String × α) → Bool
  | [] => false
  | p :: rest => if p.1 = k then true else containsKey k rest

/-- Dict assignment `d[k] = v`: replaces the entry in place if the key
exists (Python dicts keep the original insertion position), otherwise
appends. -/
def upsertKey {α : Type} (k : String) (v : α) : List (String × α) → List (String × α)
  | [] => [(k, v)]
  | p :: rest => if p.1 = k then (k, v) :: rest else p :: upsertKey k v rest

/-- Dict deletion `del d[k]`: removes the first entry with the key. -/
def eraseKey {α : Type} (k : String) : List (String × α) → List (String × α)
  | [] => []
  | p :: rest => if p.1 = k then rest else p :: eraseKey k rest

/-! ### Substring containment (Python `w in t` on strings) -/

/-- `subAux w t = true` iff the character list `w` occurs contiguously
inside `t` (Python substring containment). -/
def subAux (w : List Char) : List Char → Bool
  | [] => w.isEmpty
  | c :: rest => w.isPrefixOf (c :: rest) || subAux w rest

/-- Python `w in t` for strings. -/
def containsStr (t w : String) : Bool := subAux w.data t.data

/-- Python `any(word in t for word in kws)`. -/
def anyKw (t : String) (kws : List String) : Bool := kws.any (fun w => containsStr t w)

/-- Models Python `str.lower()` (the source only lowercases ASCII
identifiers and query text); defined over the character list so that it
evaluates by kernel reduction. -/
def pyLower (s : String) : String := String.mk (s.data.map Char.toLower)

/-! ### Python numeric helpers -/

/-- Python 3 `round(q)`: nearest integer, ties to even (floats modelled
as exact rationals). -/
def pyRound (q : ℚ) : ℤ :=
  let f : ℤ := ⌊q⌋
  let r : ℚ := q - (f : ℚ)
  if r < 1 / 2 then f
  else if 1 / 2 < r then f + 1
  else if f % 2 = 0 then f else f + 1

/-- Python 3 `round(q, 2)`. -/
def round2 (q : ℚ) : ℚ := (pyRound (q * 100) : ℚ) / 100

/-- Python `f"{n:03d}"` for a nonnegative count. -/
def pad3 (n : Nat) : String :=
  if n < 10 then "00" ++ toString n
  else if n < 100 then "0" ++ toString n
  else toString n

/-- Inserts a comma before every third digit counted from the right
(auxiliary for `commaFmt`; input and output are reversed digit lists). -/
def commaGroupAux : Nat → List Char → List Char
  | _, [] => []
  | i, c :: rest =>
    if i ≠ 0 ∧ i % 3 = 0 then ',' :: c :: commaGroupAux (i + 1) rest
    else c :: commaGroupAux (i + 1) rest

/-- Python `f"{n:,}"`: decimal rendering with thousands separators. -/
def commaFmt (n : Int) : String :=
  let sign := if n < 0 then "-" else ""
  let digits := (toString n.natAbs).data
  sign ++ String.mk (commaGroupAux 0 digits.reverse).reverse

/-! ### Data model (`student_data.json` record shapes used by `main.py`) -/

/-- One per-subject attendance entry (`{"present": ..., "total": ..., "percent": ...}`). -/
structure AttEntry where
  present : Int
  total : Int
  percent : Int
deriving DecidableEq

/-- The `attendance` sub-record of a student. -/
structure Attendance where
  overall_percent : Int
  total_classes : Int
  present : Int
  absent : Int
  subjects : List (String × AttEntry)
deriving DecidableEq

/-- One current-semester grade entry (`{"grade": ..., "marks": ..., "credits": ...}`). -/
structure GradeEntry where
  grade : String
  marks : Int
  credits : Int
deriving DecidableEq

/-- The `grades` sub-record of a student. -/
structure Grades where
  current_semester : List (String × GradeEntry)
  sgpa : ℚ
  cgpa : ℚ
  total_credits : Int
  earned_credits : Int
deriving DecidableEq

/-- One exam entry; `etype` embeds the source dict key `"type"`. -/
structure Exam where
  subject : String
  date : String
  time : String
  venue : String
  etype : String
  days_left : Int
deriving DecidableEq

/-- One borrowed-book entry. -/
structure Book where
  title : String
  author : String
  issue_date : String
  due_date : String
  fine : Int
  status : String
deriving DecidableEq

/-- The `library` sub-record of a student. -/
structure Library where
  books_borrowed : List Book
  total_borrowed : Int
  total_fine : Int
  max_books : Int
deriving DecidableEq

/-- One payment-history entry. -/
structure Payment where
  date : String
  amount : Int
  mode : String
  receipt : String
deriving DecidableEq

/-- The `fees` sub-record of a student. -/
structure Fees where
  total_fee : Int
  paid : Int
  pending : Int
  due_date : String
  payment_history : List Payment
  breakdown : List (String × Int)
deriving DecidableEq

/-- One enrolled-course entry. -/
structure Course where
  code : String
  name : String
  credits : Int
  professor : String
  schedule : String
deriving DecidableEq

/-- A full student record. -/
structure Student where
  name : String
  email : String
  phone : String
  course : String
  year : String
  semester : String
  sectionName : String  -- embeds the source dict key "section" (a Lean keyword)
  roll_no : String
  dob : String
  address : String
  cgpa : ℚ
  attendance : Attendance
  grades : Grades
  exams : List Exam
  library : Library
  fees : Fees
  courses : List Course
deriving DecidableEq

/-- One timetable class slot; `ctype` embeds the source dict key `"type"`. -/
structure ClassSlot where
  time : String
  course : String
  room : String
  professor : String
  ctype : String
deriving DecidableEq

/-- One notice; `ntype` embeds the source dict key `"type"`. -/
structure Notice where
  id : Int
  title : String
  content : String
  ntype : String
  date : String
  author : String
  time_ago : String
deriving DecidableEq

/-- One placement entry; `ptype` embeds the source dict key `"type"`. -/
structure Placement where
  company : String
  ptype : String
  ctc : String
  roles : List String
  date : String
deriving DecidableEq

/-- One campus event entry. -/
structure Event where
  name : String
  date : String
  venue : String
  description : String
deriving DecidableEq

/-- One faculty-directory entry. -/
structure FacultyMember where
  name : String
  designation : String
  cabin : String
  email : String
deriving DecidableEq

/-- One cafeteria menu item. -/
structure MenuItem where
  id : Int
  item : String
  price : Int
  category : String
deriving DecidableEq

/-- The whole persisted store (`DATA`). -/
structure Store where
  students : List (String × Student)
  notices : List Notice
  timetable : List (String × List ClassSlot)
  placements : List Placement
  events : List Event
  faculty : List FacultyMember
  cafeteria_menu : List MenuItem
deriving DecidableEq

/-- The error raised by the admin endpoints (`HTTPException`). -/
inductive ApiError where
  | http (status : Nat) (detail : String)
deriving DecidableEq

/-! ### Record-level mutation operations -/

/-- `sum(s["present"] for s in subjects.values())`. -/
def sumPresent (subs : List (String × AttEntry)) : Int :=
  (subs.map (fun p => p.2.present)).sum

/-- `sum(s["total"] for s in subjects.values())`. -/
def sumTotal (subs : List (String × AttEntry)) : Int :=
  (subs.map (fun p => p.2.total)).sum

/-- `update_attendance` (main.py lines 347-374), at the level of the
targeted student record: upserts the per-subject entry with its percent
and recomputes the four overall aggregates from the full mapping. -/
def updateAttendanceRec (s : Student) (subject : String) (present total : Int) : Student :=
  let percent : Int := if total > 0 then pyRound ((present : ℚ) / (total : ℚ) * 100) else 0
  let subs := upsertKey subject ⟨present, total, percent⟩ s.attendance.subjects
  let total_present := sumPresent subs
  let total_classes := sumTotal subs
  { s with attendance :=
      { overall_percent :=
          if total_classes > 0 then
            pyRound ((total_present : ℚ) / (total_classes : ℚ) * 100)
          else 0
        total_classes := total_classes
        present := total_present
        absent := total_classes - total_present
        subjects := subs } }

/-- The record change of `delete_attendance` (main.py lines 377-388) when
the subject is present: the entry is deleted and nothing else is touched
(the source recomputes no aggregate on this path). -/
def deleteAttendanceRec (s : Student) (subject : String) : Student :=
  { s with attendance :=
      { s.attendance with subjects := eraseKey subject s.attendance.subjects } }

/-- The fixed letter-to-point table `grades_map` of `update_grade`
(A+=10, A=9, A-=8.5, B+=8, B=7, B-=6.5, C+=6, C=5, D=4, F=0). -/
def grades_map : List (String × ℚ) :=
  [("A+", 10), ("A", 9), ("A-", 8.5), ("B+", 8), ("B", 7),
   ("B-", 6.5), ("C+", 6), ("C", 5), ("D", 4), ("F", 0)]

/-- `grades_map.get(grade, 0)`: unknown letters map to 0. -/
def gradePoint (g : String) : ℚ := (lookupKey g grades_map).getD 0

/-- The `total_points` accumulation of `update_grade`. -/
def sumPoints (cs : List (String × GradeEntry)) : ℚ :=
  (cs.map (fun p => gradePoint p.2.grade * (p.2.credits : ℚ))).sum

/-- The `total_credits` accumulation of `update_grade`. -/
def sumCredits (cs : List (String × GradeEntry)) : Int :=
  (cs.map (fun p => p.2.credits)).sum

/-- `update_grade` (main.py lines 393-421), at the level of the targeted
student record: upserts the entry and recomputes `sgpa` and
`earned_credits` from scratch over the whole current-semester mapping. -/
def updateGradeRec (s : Student) (subject grade : String) (marks credits : Int) : Student :=
  let cs := upsertKey subject ⟨grade, marks, credits⟩ s.grades.current_semester
  let total_points := sumPoints cs
  let total_credits := sumCredits cs
  { s with grades :=
      { s.grades with
        current_semester := cs
        sgpa := if total_credits > 0 then round2 (total_points / (total_credits : ℚ)) else 0
        earned_credits := total_credits } }

/-- The record change of `delete_grade` (main.py lines 424-435) when the
subject is present: the entry is deleted and nothing else is touched (the
source recomputes neither `sgpa` nor `earned_credits` on this path). -/
def deleteGradeRec (s : Student) (subject : String) : Student :=
  { s with grades :=
      { s.grades with current_semester := eraseKey subject s.grades.current_semester } }

/-- `update_fees` (main.py lines 474-488), at the level of the targeted
student record. -/
def updateFeesRec (s : Student) (total_fee paid : Int) (due_date : String) : Student :=
  { s with fees :=
      { s.fees with
        total_fee := total_fee
        paid := paid
        pending := total_fee - paid
        due_date := due_date } }

/-- `add_payment` (main.py lines 491-509), at the level of the targeted
student record; `nowDate` stands for `datetime.now().strftime("%d %b %Y")`. -/
def addPaymentRec (s : Student) (amount : Int) (mode nowDate : String) : Student :=
  let paid := s.fees.paid + amount
  { s with fees :=
      { s.fees with
        paid := paid
        pending := s.fees.total_fee - paid
        payment_history := s.fees.payment_history ++
          [⟨nowDate, amount, mode, "REC" ++ pad3 (s.fees.payment_history.length + 1)⟩] } }

/-! ### Intent classifier (`detect_intent`, main.py lines 783-822) -/

def attendanceKws : List String := ["attendance", "present", "absent"]

def timetableKws : List String :=
  ["timetable", "schedule", "class today", "classes today", "today\x27s class"]

def examsKws : List String := ["exam", "test", "examination", "mid-sem", "end-sem"]

def gradesKws : List String := ["grade", "result", "marks", "cgpa", "sgpa", "gpa", "score"]

def libraryKws : List String := ["library", "book", "borrow", "due", "fine"]

def feesKws : List String := ["fee", "payment", "pay", "dues", "tuition"]

def noticesKws : List String := ["notice", "announcement", "news", "update", "circular"]

def coursesKws : List String := ["course", "subject", "credit", "professor", "teacher"]

def profileKws : List String := ["profile", "my info", "my details", "about me", "student info"]

def helpKws : List String := ["help", "what can you", "how to", "assist"]

def greetKws : List String :=
  ["hello", "hi", "hey", "good morning", "good afternoon", "good evening"]

def placementsKws : List String :=
  ["placement", "job", "internship", "recruit", "company", "package", "ctc"]

def eventsKws : List String :=
  ["event", "club", "workshop", "fest", "seminar", "hackathon", "activity"]

def facultyKws : List String :=
  ["faculty", "professor", "teacher", "appointment", "cabin", "meet sir", "meet ma\x27am"]

def cafeteriaKws : List String :=
  ["cafeteria", "canteen", "food", "menu", "order", "eat", "lunch", "snack"]

def cgpaCalcKws : List String :=
  ["predict cgpa", "calculate cgpa", "target cgpa", "gpa calculator"]

/-- `detect_intent`: lowercases the text, then first-match-wins over the
fixed ordered keyword rules; `"unknown"` when nothing matches. -/
def detect_intent (text : String) : String :=
  let t := pyLower text
  if anyKw t attendanceKws then "attendance"
  else if anyKw t timetableKws then "timetable"
  else if anyKw t examsKws then "exams"
  else if anyKw t gradesKws then "grades"
  else if anyKw t libraryKws then "library"
  else if anyKw t feesKws then "fees"
  else if anyKw t noticesKws then "notices"
  else if anyKw t coursesKws then "courses"
  else if anyKw t profileKws then "profile"
  else if anyKw t helpKws then "help"
  else if anyKw t greetKws then "greet"
  else if anyKw t placementsKws then "placements"
  else if anyKw t eventsKws then "events"
  else if anyKw t facultyKws then "faculty"
  else if anyKw t cafeteriaKws then "cafeteria"
  else if anyKw t cgpaCalcKws then "cgpa_calc"
  else "unknown"

/-- The ordered rule list of `detect_intent`, as (tag, keyword set) pairs. -/
def intentRules : List (String × List String) :=
  [("attendance", attendanceKws), ("timetable", timetableKws), ("exams", examsKws),
   ("grades", gradesKws), ("library", libraryKws), ("fees", feesKws),
   ("notices", noticesKws), ("courses", coursesKws), ("profile", profileKws),
   ("help", helpKws), ("greet", greetKws), ("placements", placementsKws),
   ("events", eventsKws), ("faculty", facultyKws), ("cafeteria", cafeteriaKws),
   ("cgpa_calc", cgpaCalcKws)]

/-- The weekday-name list of `get_day_from_text` (index 0 = Monday, as
Python `datetime.weekday()`). -/
def days : List String :=
  ["monday", "tuesday", "wednesday", "thursday", "friday", "saturday", "sunday"]

/-- `get_day_from_text` (main.py lines 825-840); `today` stands for
`datetime.now().weekday()`, and `datetime.now().strftime("%A").lower()`
is `days` at that index. -/
def get_day_from_text (text : String) (today : Fin 7) : String :=
  let t := pyLower text
  if containsStr t "today" then days.getD today.val ""
  else if containsStr t "tomorrow" then days.getD ((today.val + 1) % 7) ""
  else (days.find? (fun day => containsStr t day)).getD (days.getD today.val "")

/-! ### Response generation (`process`, main.py lines 843-1039) -/

/-- The attendance reply of `process` before the threshold lines. -/
def attendanceBase (s : Student) : String :=
  let att := s.attendance
  let subject_details := att.subjects.map (fun p => p.1 ++ ": " ++ toString p.2.percent ++ "%")
  "ğŸ“Š Your overall attendance is " ++ toString att.overall_percent ++ "%.\n" ++
  "Classes attended: " ++ toString att.present ++ "/" ++ toString att.total_classes ++
  " (Absent: " ++ toString att.absent ++ ")\n\n" ++
  "Subject-wise breakdown:\n" ++
  String.intercalate "\n" (subject_details.map (fun d => "â€¢ " ++ d))

/-- The warning appended when `overall_percent < 75`. -/
def lowAttendanceWarning : String :=
  "\n\nâš ï¸ Warning: Your attendance is below 75%. Please attend more classes!"

/-- The commendation appended when `overall_percent >= 90`. -/
def excellentAttendanceNote : String := "\n\nğŸŒŸ Excellent attendance! Keep it up!"

/-- The full attendance reply of `process` (lines 857-876). -/
def attendanceReply (s : Student) : String :=
  let reply := attendanceBase s
  if s.attendance.overall_percent < 75 then reply ++ lowAttendanceWarning
  else if s.attendance.overall_percent ≥ 90 then reply ++ excellentAttendanceNote
  else reply

/-- The timetable reply of `process` (lines 878-892). -/
def timetableReply (store : Store) (t : String) (today : Fin 7) : String :=
  let day := get_day_from_text t today
  match lookupKey day store.timetable with
  | none => "ğŸ“… No classes scheduled for " ++ day.capitalize ++ "."
  | some classes =>
    (classes.foldl (fun acc c =>
        acc ++ "ğŸ• " ++ c.time ++ " - " ++ c.course ++ "\n" ++
        "   ğŸ“ " ++ c.room ++ " | ğŸ‘¨â€ğŸ« " ++ c.professor ++ " | ğŸ“š " ++ c.ctype ++ "\n\n")
      ("ğŸ“… Timetable for " ++ day.capitalize ++ ":\n\n")).trim

/-- The exams reply of `process` (lines 894-906). -/
def examsReply (s : Student) : String :=
  if s.exams.isEmpty then "ğŸ“ No upcoming exams scheduled."
  else
    (s.exams.foldl (fun acc exam =>
        acc ++ "ğŸ“Œ " ++ exam.subject ++ " (" ++ exam.etype ++ ")\n" ++
        "   ğŸ“… " ++ exam.date ++ " at " ++ exam.time ++ "\n" ++
        "   ğŸ“ Venue: " ++ exam.venue ++ "\n" ++
        "   â³ " ++ toString exam.days_left ++ " days left\n\n")
      "ğŸ“ Upcoming Examinations:\n\n").trim

/-- The grades reply of `process` (lines 908-920); numeric rendering of
the rational fields abstracts Python float formatting. -/
def gradesReply (s : Student) : String :=
  let grades := s.grades
  ((grades.current_semester.foldl (fun acc p =>
        acc ++ "â€¢ " ++ p.1 ++ ": " ++ p.2.grade ++ " (" ++ toString p.2.marks ++ " marks)\n")
      ("ğŸ“ Academic Performance:\n\n" ++
       "ğŸ“Š CGPA: " ++ toString grades.cgpa ++ " | SGPA: " ++ toString grades.sgpa ++ "\n" ++
       "ğŸ“š Credits: " ++ toString grades.earned_credits ++ "/" ++
       toString grades.total_credits ++ "\n\n" ++
       "Current Semester Grades:\n"))).trim

/-- The library reply of `process` (lines 922-939). -/
def libraryReply (s : Student) : String :=
  let library := s.library
  let base := "ğŸ“š Library Status:\n\n" ++
    "Books borrowed: " ++ toString library.total_borrowed ++ "/" ++
    toString library.max_books ++ "\n"
  let base :=
    if library.total_fine > 0 then
      base ++ "âš ï¸ Outstanding fine: â‚¹" ++ toString library.total_fine ++ "\n"
    else base
  (library.books_borrowed.foldl (fun acc book =>
      let status_emoji :=
        if book.status = "Overdue" then "ğŸ”´"
        else if book.status = "Due Soon" then "ğŸŸ¡" else "ğŸŸ¢"
      acc ++ "\n" ++ status_emoji ++ " " ++ book.title ++ "\n" ++
      "   Author: " ++ book.author ++ "\n" ++
      "   Due: " ++ book.due_date ++ " (" ++ book.status ++ ")\n")
    (base ++ "\nBorrowed Books:\n")).trim

/-- The fees reply of `process` (lines 941-949). -/
def feesReply (s : Student) : String :=
  ("ğŸ’° Fee Details:\n\n" ++
   "Total Fee: â‚¹" ++ commaFmt s.fees.total_fee ++ "\n" ++
   "âœ… Paid: â‚¹" ++ commaFmt s.fees.paid ++ "\n" ++
   "â³ Pending: â‚¹" ++ commaFmt s.fees.pending ++ "\n" ++
   "ğŸ“… Due Date: " ++ s.fees.due_date ++ "\n").trim

/-- The notices reply of `process` (lines 951-960). -/
def noticesReply (store : Store) : String :=
  ((store.notices.take 5).foldl (fun acc notice =>
      let type_emoji :=
        if notice.ntype = "urgent" then "ğŸ”´"
        else if notice.ntype = "warning" then "ğŸŸ¡" else "ğŸ”µ"
      acc ++ type_emoji ++ " " ++ notice.title ++ "\n" ++
      "   ğŸ“ " ++ notice.author ++ " â€¢ " ++ notice.time_ago ++ "\n\n")
    "ğŸ“¢ Latest Notices:\n\n").trim

/-- The courses reply of `process` (lines 962-970). -/
def coursesReply (s : Student) : String :=
  (s.courses.foldl (fun acc course =>
      acc ++ "ğŸ“š " ++ course.code ++ ": " ++ course.name ++ "\n" ++
      "   ğŸ‘¨â€ğŸ« " ++ course.professor ++ " | ğŸ“Š " ++ toString course.credits ++ " credits\n\n")
    "ğŸ“– Enrolled Courses:\n\n").trim

/-- The profile reply of `process` (lines 972-982). -/
def profileReply (s : Student) : String :=
  "ğŸ‘¤ Student Profile:\n\n" ++
  "ğŸ“› Name: " ++ s.name ++ "\n" ++
  "ğŸ†” Roll No: " ++ s.roll_no ++ "\n" ++
  "ğŸ“§ Email: " ++ s.email ++ "\n" ++
  "ğŸ“± Phone: " ++ s.phone ++ "\n" ++
  "ğŸ“ Course: " ++ s.course ++ "\n" ++
  "ğŸ“… Year: " ++ s.year ++ " (" ++ s.semester ++ ")\n" ++
  "ğŸ“Š CGPA: " ++ toString s.cgpa

/-- The help reply of `process` (lines 984-990). -/
def helpReply : String :=
  "ğŸ¤– I can help you with:\n\n" ++
  "ğŸ“Š Attendance | ğŸ“… Timetable | ğŸ“ Exams\n" ++
  "ğŸ“ Grades | ğŸ“š Library | ğŸ’° Fees\n" ++
  "ğŸ“¢ Notices | ğŸ“– Courses | ğŸ‘¤ Profile"

/-- The greeting reply of `process` (lines 992-995); `hour` stands for
`datetime.now().hour`. -/
def greetReply (s : Student) (hour : Int) : String :=
  let greeting :=
    if hour < 12 then "Good morning"
    else if hour < 17 then "Good afternoon" else "Good evening"
  greeting ++ ", " ++ s.name ++ "! ğŸ‘‹ How can I help you today?"

/-- The placements reply of `process` (lines 999-1006); `headD ""` embeds
the source index `p["roles"][0]`. -/
def placementsReply (store : Store) : String :=
  (store.placements.foldl (fun acc p =>
      acc ++ "ğŸ¢ " ++ p.company ++ " (" ++ p.ptype ++ ")\n" ++
      "   ğŸ’° CTC: " ++ p.ctc ++ " | Role: " ++ p.roles.headD "" ++ "\n" ++
      "   ğŸ“… Date: " ++ p.date ++ "\n\n")
    "ğŸ’¼ Placement Updates:\n\n").trim

/-- The events reply of `process` (lines 1008-1015). -/
def eventsReply (store : Store) : String :=
  (store.events.foldl (fun acc e =>
      acc ++ "ğŸª " ++ e.name ++ "\n" ++
      "   ğŸ“… " ++ e.date ++ " @ " ++ e.venue ++ "\n" ++
      "   â„¹ï¸ " ++ e.description ++ "\n\n")
    "ğŸ­ Upcoming Campus Events:\n\n").trim

/-- The faculty reply of `process` (lines 1017-1025). -/
def facultyReply (store : Store) : String :=
  ((store.faculty.foldl (fun acc f =>
      acc ++ "ğŸ‘¤ " ++ f.name ++ " (" ++ f.designation ++ ")\n" ++
      "   ğŸ“ " ++ f.cabin ++ " | ğŸ“§ " ++ f.email ++ "\n\n")
    "ğŸ‘¨â€ğŸ« Faculty Directory:\n\n") ++
   "You can ask me to \x27Book an appointment\x27 if needed!").trim

/-- The cafeteria reply of `process` (lines 1027-1034). -/
def cafeteriaReply (store : Store) : String :=
  ((store.cafeteria_menu.foldl (fun acc item =>
      acc ++ "â€¢ " ++ item.item ++ " - â‚¹" ++ toString item.price ++ "\n")
    "ğŸ” Cafeteria Menu:\n\n") ++
   "\nSay \x27Order [Item Name]\x27 to place an order!").trim

/-- The cgpa_calc reply of `process` (lines 1036-1037). -/
def cgpaCalcReply : String :=
  "ğŸ”¢ To calculate your target CGPA, please use the \x27CGPA Predictor\x27 tool in the dashboard menu. It allows you to simulate your future grades!"

/-- The final fallback reply of `process` (line 1039). -/
def fallbackReply : String :=
  "I didn\x27t understand. Try asking about attendance, timetable, exams, fees, library, placements, events, faculty, or cafeteria!"

/-- The unknown-caller apology of `process` (line 855). -/
def sorryReply (user : String) : String :=
  "Sorry, I couldn\x27t find data for " ++ user ++ ". Please check your credentials."

/-- `process` (main.py lines 843-1039), the `/api/voice` query
orchestrator: `store` is the freshly re-loaded data, `today` and `hour`
stand for the ambient clock.  The query path reads but never mutates the
store and never raises. -/
def processVoice (store : Store) (text user : String) (today : Fin 7) (hour : Int) :
    Except ApiError (Store × String) :=
  let t := pyLower text
  let intent := detect_intent t
  let user_key := pyLower user
  match lookupKey user_key store.students with
  | none => .ok (store, sorryReply user)
  | some student =>
    if intent = "attendance" then .ok (store, attendanceReply student)
    else if intent = "timetable" then .ok (store, timetableReply store t today)
    else if intent = "exams" then .ok (store, examsReply student)
    else if intent = "grades" then .ok (store, gradesReply student)
    else if intent = "library" then .ok (store, libraryReply student)
    else if intent = "fees" then .ok (store, feesReply student)
    else if intent = "notices" then .ok (store, noticesReply store)
    else if intent = "courses" then .ok (store, coursesReply student)
    else if intent = "profile" then .ok (store, profileReply student)
    else if intent = "help" then .ok (store, helpReply)
    else if intent = "greet" then .ok (store, greetReply student hour)
    else if intent = "placements" then .ok (store, placementsReply store)
    else if intent = "events" then .ok (store, eventsReply store)
    else if intent = "faculty" then .ok (store, facultyReply store)
    else if intent = "cafeteria" then .ok (store, cafeteriaReply store)
    else if intent = "cgpa_calc" then .ok (store, cgpaCalcReply)
    else .ok (store, fallbackReply)

/-! ### Store-level delete endpoints (for the no-op claims) -/

/-- `delete_attendance` (main.py lines 377-388). -/
def deleteAttendance (store : Store) (student_key subject : String) :
    Except ApiError (Store × String) :=
  let key := pyLower student_key
  match lookupKey key store.students with
  | none => .error (.http 404 "Student not found")
  | some s =>
    if containsKey subject s.attendance.subjects then
      .ok ({ store with students := upsertKey key (deleteAttendanceRec s subject) store.students },
        "Attendance deleted for " ++ subject)
    else .ok (store, "Attendance deleted for " ++ subject)

/-- `delete_grade` (main.py lines 424-435). -/
def deleteGrade (store : Store) (student_key subject : String) :
    Except ApiError (Store × String) :=
  let key := pyLower student_key
  match lookupKey key store.students with
  | none => .error (.http 404 "Student not found")
  | some s =>
    if containsKey subject s.grades.current_semester then
      .ok ({ store with students := upsertKey key (deleteGradeRec s subject) store.students },
        "Grade deleted for " ++ subject)
    else .ok (store, "Grade deleted for " ++ subject)

/-- `delete_exam` (main.py lines 460-469): unconditionally filters out
every exam entry whose subject matches. -/
def deleteExam (store : Store) (student_key subject : String) :
    Except ApiError (Store × String) :=
  let key := pyLower student_key
  match lookupKey key store.students with
  | none => .error (.http 404 "Student not found")
  | some s =>
    let s' := { s with exams := s.exams.filter (fun e => e.subject != subject) }
    .ok ({ store with students := upsertKey key s' store.students },
      "Exam deleted for " ++ subject)

/-! ### Spec-side formulas (from the claims' words, for comparison) -/

/-- Modelled from the spec claim: per-subject percent
`round(present/total × 100)`, 0 when `total == 0`. -/
def specSubjectPercent (present total : Int) : Int :=
  if total = 0 then 0 else pyRound ((present : ℚ) / (total : ℚ) * 100)

/-- Modelled from the spec claim: `overall_percent ==
round(Σpresent/Σtotal × 100)` over all subject entries, 0 when
`Σtotal == 0`. -/
def specOverallPercent (subs : List (String × AttEntry)) : Int :=
  if sumTotal subs = 0 then 0
  else pyRound ((sumPresent subs : ℚ) / (sumTotal subs : ℚ) * 100)

/-- Modelled from the spec claim: `sgpa ==
round(Σ(point(grade)×credits)/Σcredits, 2)` over the current-term
mapping, 0 when `Σcredits == 0`. -/
def specSgpa (cs : List (String × GradeEntry)) : ℚ :=
  if sumCredits cs = 0 then 0 else round2 (sumPoints cs / (sumCredits cs : ℚ))

/-! ### Concrete sample records -/

def emptyAttendance : Attendance := ⟨0, 0, 0, 0, []⟩

def emptyGrades : Grades := ⟨[], 0, 0, 0, 0⟩

def emptyLibrary : Library := ⟨[], 0, 0, 5⟩

def emptyFees : Fees := ⟨0, 0, 0, "", [], []⟩

/-- A freshly created student record (all aggregates zeroed). -/
def student0 : Student :=
  ⟨"Ada Lovelace", "ada@example.edu", "1234567890", "CSE", "2", "4", "A",
   "CSE01", "01 Jan 2006", "Somewhere", 0,
   emptyAttendance, emptyGrades, [], emptyLibrary, emptyFees, []⟩

/-- Two attendance subjects with consistent aggregates
(18+0 present out of 20+20 total, overall 45%). -/
def student1 : Student :=
  { student0 with attendance :=
      ⟨45, 40, 18, 22, [("Maths", ⟨18, 20, 90⟩), ("OS", ⟨0, 20, 0⟩)]⟩ }

/-- One grade entry with consistent `sgpa` 9 and `earned_credits` 4. -/
def student2 : Student :=
  { student0 with grades := ⟨[("DSA", ⟨"A", 90, 4⟩)], 9, 0, 0, 4⟩ }

/-- A student with one attendance subject, one grade and one exam. -/
def studentA : Student :=
  { student0 with
    attendance := ⟨90, 20, 18, 2, [("Maths", ⟨18, 20, 90⟩)]⟩
    grades := ⟨[("DSA", ⟨"A", 90, 4⟩)], 9, 0, 0, 4⟩
    exams := [⟨"OS", "10 Jan 2026", "9:00 AM", "Hall 1", "Mid-Sem", 5⟩] }

def studentLow : Student :=
  { student0 with attendance := { student0.attendance with overall_percent := 60 } }

def studentMid : Student :=
  { student0 with attendance := { student0.attendance with overall_percent := 80 } }

def studentHigh : Student :=
  { student0 with attendance := { student0.attendance with overall_percent := 95 } }

def storeEmpty : Store := ⟨[], [], [], [], [], [], []⟩

def store1 : Store := ⟨[("ada lovelace", studentA)], [], [], [], [], [], []⟩

/-! ### Helper lemmas -/

theorem lookupKey_upsertKey {α : Type} (k : String) (v : α) (l : List (String × α)) :
    lookupKey k (upsertKey k v l) = some v := by
  induction l with
  | nil => simp [upsertKey, lookupKey]
  | cons p rest ih =>
    by_cases h : p.1 = k
    · simp [upsertKey, h, lookupKey]
    · simp [upsertKey, h, lookupKey, ih]

theorem upsertKey_self {α : Type} (k : String) (v : α) (l : List (String × α))
    (h : lookupKey k l = some v) : upsertKey k v l = l := by
  induction l with
  | nil => simp [lookupKey] at h
  | cons p rest ih =>
    obtain ⟨pk, pv⟩ := p
    by_cases hp : pk = k
    · subst hp
      simp [lookupKey] at h
      simp [upsertKey, h]
    · simp only [lookupKey, hp, if_false] at h
      simp [upsertKey, hp, ih h]

theorem filter_id_of_all {α : Type} (p : α → Bool) (l : List α)
    (h : ∀ a ∈ l, p a = true) : l.filter p = l := by
  induction l with
  | nil => rfl
  | cons a rest ih =>
    have ha := h a (by simp)
    simp [List.filter_cons, ha, ih (fun b hb => h b (by simp [hb]))]

theorem isPrefixOf_append_right (w v t : List Char)
    (h : (w ++ v).isPrefixOf t = true) : w.isPrefixOf t = true := by
  induction w generalizing t with
  | nil => simp [List.isPrefixOf]
  | cons a w ih =>
    cases t with
    | nil => simp [List.isPrefixOf] at h
    | cons b t =>
      simp only [List.cons_append, List.isPrefixOf, Bool.and_eq_true] at h ⊢
      exact ⟨h.1, ih t h.2⟩

theorem subAux_of_isPrefixOf (w t : List Char) (h : w.isPrefixOf t = true) :
    subAux w t = true := by
  cases t with
  | nil =>
    cases w with
    | nil => simp [subAux]
    | cons a w => simp [List.isPrefixOf] at h
  | cons c rest => simp [subAux, h]

theorem subAux_append_right (w v t : List Char) (h : subAux (w ++ v) t = true) :
    subAux w t = true := by
  induction t with
  | nil =>
    cases w with
    | nil => simp [subAux]
    | cons a w => simp [subAux] at h
  | cons c rest ih =>
    simp only [subAux, Bool.or_eq_true] at h ⊢
    rcases h with h | h
    · exact Or.inl (isPrefixOf_append_right w v _ h)
    · exact Or.inr (ih h)

theorem subAux_of_isPrefixOf_append (u w t : List Char)
    (h : (u ++ w).isPrefixOf t = true) : subAux w t = true := by
  induction u generalizing t with
  | nil => exact subAux_of_isPrefixOf w t (by simpa using h)
  | cons a u ih =>
    cases t with
    | nil => simp [List.isPrefixOf] at h
    | cons b t =>
      simp only [List.cons_append, List.isPrefixOf, Bool.and_eq_true] at h
      have hsub := ih t h.2
      simp [subAux, hsub]

theorem subAux_append_left (u w t : List Char) (h : subAux (u ++ w) t = true) :
    subAux w t = true := by
  induction t with
  | nil =>
    cases u with
    | nil => simpa using h
    | cons a u => simp [subAux] at h
  | cons c rest ih =>
    simp only [subAux, Bool.or_eq_true] at h
    rcases h with h | h
    · exact subAux_of_isPrefixOf_append u w _ h
    · simp only [subAux, Bool.or_eq_true]
      exact Or.inr (ih h)

/-- Every keyword of the `cgpa_calc` rule contains `"gpa"` as a substring,
so any text matching that rule also contains `"gpa"`. -/
theorem containsStr_gpa_of_cgpaKw (t : String) (h : anyKw t cgpaCalcKws = true) :
    containsStr t "gpa" = true := by
  simp only [anyKw, cgpaCalcKws, List.any_cons, List.any_nil,
    Bool.or_eq_true, Bool.or_false] at h
  unfold containsStr at h ⊢
  rcases h with h | h | h | h
  · rw [show ("predict cgpa").data = ("predict c").data ++ ("gpa").data from rfl] at h
    exact subAux_append_left _ _ _ h
  · rw [show ("calculate cgpa").data = ("calculate c").data ++ ("gpa").data from rfl] at h
    exact subAux_append_left _ _ _ h
  · rw [show ("target cgpa").data = ("target c").data ++ ("gpa").data from rfl] at h
    exact subAux_append_left _ _ _ h
  · rw [show ("gpa calculator").data = ("gpa").data ++ (" calculator").data from rfl] at h
    exact subAux_append_right _ _ _ h

/-! ### Claim theorems -/

/-- C1 (amended): after an attendance upsert the stored per-subject entry
has percent `round(present/total × 100)` when `total > 0` and `0`
otherwise (so also `0` for nonpositive totals, not an error), and the
four overall aggregates equal the sums/ratios recomputed over all stored
per-subject entries, with `overall_percent` guarded by `Σtotal > 0`. -/
theorem attendance_upsert_aggregates (s : Student) (subject : String) (present total : Int) :
    lookupKey subject (updateAttendanceRec s subject present total).attendance.subjects =
      some ⟨present, total,
        if total > 0 then pyRound ((present : ℚ) / (total : ℚ) * 100) else 0⟩ ∧
    (updateAttendanceRec s subject present total).attendance.present =
      sumPresent (updateAttendanceRec s subject present total).attendance.subjects ∧
    (updateAttendanceRec s subject present total).attendance.total_classes =
      sumTotal (updateAttendanceRec s subject present total).attendance.subjects ∧
    (updateAttendanceRec s subject present total).attendance.absent =
      (updateAttendanceRec s subject present total).attendance.total_classes -
        (updateAttendanceRec s subject present total).attendance.present ∧
    (updateAttendanceRec s subject present total).attendance.overall_percent =
      (if sumTotal (updateAttendanceRec s subject present total).attendance.subjects > 0 then
        pyRound
          ((sumPresent (updateAttendanceRec s subject present total).attendance.subjects : ℚ) /
            (sumTotal (updateAttendanceRec s subject present total).attendance.subjects : ℚ) *
            100)
      else 0) :=
  ⟨lookupKey_upsertKey subject _ _, rfl, rfl, rfl, rfl⟩

/-- C1 counterexample: on the upsert (present 10, total -20) the code
stores percent 0, while the claim's formula `round(present/total × 100)`
(with its only exception at `total == 0`) demands -50. -/
theorem attendance_upsert_claim_cex :
    lookupKey "Maths" (updateAttendanceRec student0 "Maths" 10 (-20)).attendance.subjects =
      some ⟨10, -20, 0⟩ ∧
    specSubjectPercent 10 (-20) ≠ 0 := by
  constructor
  · decide
  · norm_num [specSubjectPercent, pyRound]

/-- C2 (amended): a grade upsert stores the entry and recomputes `sgpa`
(rounded to 2 decimals, 0 when `Σcredits ≤ 0`) and `earned_credits` from
the full current-term mapping; a grade delete removes the entry but
leaves `sgpa` and `earned_credits` at their previous values (no
recompute). -/
theorem grade_ops_recompute (s : Student) (subject grade : String) (marks credits : Int) :
    ((updateGradeRec s subject grade marks credits).grades.sgpa =
      (if sumCredits (updateGradeRec s subject grade marks credits).grades.current_semester > 0
       then
         round2
           (sumPoints (updateGradeRec s subject grade marks credits).grades.current_semester /
             (sumCredits (updateGradeRec s subject grade marks credits).grades.current_semester :
               ℚ))
       else 0) ∧
     (updateGradeRec s subject grade marks credits).grades.earned_credits =
       sumCredits (updateGradeRec s subject grade marks credits).grades.current_semester ∧
     lookupKey subject (updateGradeRec s subject grade marks credits).grades.current_semester =
       some ⟨grade, marks, credits⟩) ∧
    ((deleteGradeRec s subject).grades.current_semester =
       eraseKey subject s.grades.current_semester ∧
     (deleteGradeRec s subject).grades.sgpa = s.grades.sgpa ∧
     (deleteGradeRec s subject).grades.earned_credits = s.grades.earned_credits) :=
  ⟨⟨rfl, rfl, lookupKey_upsertKey subject _ _⟩, rfl, rfl, rfl⟩

/-- C2 counterexample: deleting the only grade entry ("DSA", grade A,
credits 4) of a consistent record leaves `sgpa` at 9 and
`earned_credits` at 4, while the claim demands recomputation over the
now-empty mapping (0 and 0). -/
theorem grade_delete_claim_cex :
    (deleteGradeRec student2 "DSA").grades.sgpa ≠
      specSgpa (deleteGradeRec student2 "DSA").grades.current_semester ∧
    (deleteGradeRec student2 "DSA").grades.earned_credits ≠
      sumCredits (deleteGradeRec student2 "DSA").grades.current_semester := by
  decide

/-- C3 (amended): an attendance delete removes the per-subject entry but
leaves the four overall aggregates at their pre-delete values — the code
does not recompute them when the subject set shrinks. -/
theorem attendance_delete_no_recompute (s : Student) (subject : String) :
    (deleteAttendanceRec s subject).attendance.subjects =
      eraseKey subject s.attendance.subjects ∧
    (deleteAttendanceRec s subject).attendance.overall_percent =
      s.attendance.overall_percent ∧
    (deleteAttendanceRec s subject).attendance.total_classes =
      s.attendance.total_classes ∧
    (deleteAttendanceRec s subject).attendance.present = s.attendance.present ∧
    (deleteAttendanceRec s subject).attendance.absent = s.attendance.absent :=
  ⟨rfl, rfl, rfl, rfl, rfl⟩

/-- C3 counterexample: deleting the present subject "OS" (0 of 20) from a
consistent two-subject record leaves `overall_percent` at the stale 45,
while recomputing over the remaining entries (18 of 20) gives 90. -/
theorem attendance_delete_claim_cex :
    containsKey "OS" student1.attendance.subjects = true ∧
    (deleteAttendanceRec student1 "OS").attendance.overall_percent ≠
      specOverallPercent (deleteAttendanceRec student1 "OS").attendance.subjects := by
  constructor
  · decide
  · have h1 : (deleteAttendanceRec student1 "OS").attendance.overall_percent = 45 := by decide
    have h2 : (deleteAttendanceRec student1 "OS").attendance.subjects =
        [("Maths", ⟨18, 20, 90⟩)] := by decide
    rw [h1, h2]
    norm_num [specOverallPercent, sumPresent, sumTotal, pyRound]

/-- C4: a fee-set and a payment-add both re-establish
`pending == total_fee - paid`; a payment-add increments `paid` by the
amount and appends exactly one history entry whose receipt is derived
from the previous history length + 1. -/
theorem fee_ops_invariants (s : Student) (total_fee paid : Int) (due_date : String)
    (amount : Int) (mode nowDate : String) :
    ((updateFeesRec s total_fee paid due_date).fees.pending =
      (updateFeesRec s total_fee paid due_date).fees.total_fee -
        (updateFeesRec s total_fee paid due_date).fees.paid) ∧
    ((addPaymentRec s amount mode nowDate).fees.pending =
      (addPaymentRec s amount mode nowDate).fees.total_fee -
        (addPaymentRec s amount mode nowDate).fees.paid) ∧
    ((addPaymentRec s amount mode nowDate).fees.paid = s.fees.paid + amount) ∧
    ((addPaymentRec s amount mode nowDate).fees.payment_history =
      s.fees.payment_history ++
        [⟨nowDate, amount, mode, "REC" ++ pad3 (s.fees.payment_history.length + 1)⟩]) :=
  ⟨rfl, rfl, rfl, rfl⟩

/-- C5: the classifier is first-match-wins over the fixed ordered rules:
any text whose lowercase form contains an attendance keyword classifies
as `attendance` (regardless of later rules), and a text matching no rule
classifies as `unknown`. -/
theorem classifier_first_match (text : String) :
    (anyKw (pyLower text) attendanceKws = true → detect_intent text = "attendance") ∧
    ((∀ r ∈ intentRules, anyKw (pyLower text) r.2 = false) →
      detect_intent text = "unknown") := by
  constructor
  · intro h
    simp only [detect_intent]
    rw [if_pos h]
  · intro h
    have h1 : anyKw (pyLower text) attendanceKws = false := h ("attendance", attendanceKws) (by simp [intentRules])
    have h2 : anyKw (pyLower text) timetableKws = false := h ("timetable", timetableKws) (by simp [intentRules])
    have h3 : anyKw (pyLower text) examsKws = false := h ("exams", examsKws) (by simp [intentRules])
    have h4 : anyKw (pyLower text) gradesKws = false := h ("grades", gradesKws) (by simp [intentRules])
    have h5 : anyKw (pyLower text) libraryKws = false := h ("library", libraryKws) (by simp [intentRules])
    have h6 : anyKw (pyLower text) feesKws = false := h ("fees", feesKws) (by simp [intentRules])
    have h7 : anyKw (pyLower text) noticesKws = false := h ("notices", noticesKws) (by simp [intentRules])
    have h8 : anyKw (pyLower text) coursesKws = false := h ("courses", coursesKws) (by simp [intentRules])
    have h9 : anyKw (pyLower text) profileKws = false := h ("profile", profileKws) (by simp [intentRules])
    have h10 : anyKw (pyLower text) helpKws = false := h ("help", helpKws) (by simp [intentRules])
    have h11 : anyKw (pyLower text) greetKws = false := h ("greet", greetKws) (by simp [intentRules])
    have h12 : anyKw (pyLower text) placementsKws = false := h ("placements", placementsKws) (by simp [intentRules])
    have h13 : anyKw (pyLower text) eventsKws = false := h ("events", eventsKws) (by simp [intentRules])
    have h14 : anyKw (pyLower text) facultyKws = false := h ("faculty", facultyKws) (by simp [intentRules])
    have h15 : anyKw (pyLower text) cafeteriaKws = false := h ("cafeteria", cafeteriaKws) (by simp [intentRules])
    have h16 : anyKw (pyLower text) cgpaCalcKws = false := h ("cgpa_calc", cgpaCalcKws) (by simp [intentRules])
    simp only [detect_intent, h1, h2, h3, h4, h5, h6, h7, h8, h9, h10, h11, h12, h13,
      h14, h15, h16]
    simp

/-- C5 witness: a text with both an attendance and a grades keyword
classifies as `attendance`; a keyword-free text classifies as `unknown`. -/
theorem classifier_first_match_witness :
    detect_intent "my attendance and my grades" = "attendance" ∧
    detect_intent "qqq zzz" = "unknown" :=
  ⟨(classifier_first_match "my attendance and my grades").1 (by decide),
   (classifier_first_match "qqq zzz").2 (by decide)⟩

/-- C6: the classifier can never return `cgpa_calc`: every keyword of
that rule contains `"gpa"`, a keyword of the earlier grades rule, so the
grades rule (or an even earlier one) always fires first. -/
theorem classifier_never_cgpa_calc (text : String) : detect_intent text ≠ "cgpa_calc" := by
  intro h
  simp only [detect_intent] at h
  by_cases h1 : anyKw (pyLower text) attendanceKws = true
  · rw [if_pos h1] at h; exact absurd h (by decide)
  rw [if_neg h1] at h
  by_cases h2 : anyKw (pyLower text) timetableKws = true
  · rw [if_pos h2] at h; exact absurd h (by decide)
  rw [if_neg h2] at h
  by_cases h3 : anyKw (pyLower text) examsKws = true
  · rw [if_pos h3] at h; exact absurd h (by decide)
  rw [if_neg h3] at h
  by_cases h4 : anyKw (pyLower text) gradesKws = true
  · rw [if_pos h4] at h; exact absurd h (by decide)
  rw [if_neg h4] at h
  by_cases h5 : anyKw (pyLower text) libraryKws = true
  · rw [if_pos h5] at h; exact absurd h (by decide)
  rw [if_neg h5] at h
  by_cases h6 : anyKw (pyLower text) feesKws = true
  · rw [if_pos h6] at h; exact absurd h (by decide)
  rw [if_neg h6] at h
  by_cases h7 : anyKw (pyLower text) noticesKws = true
  · rw [if_pos h7] at h; exact absurd h (by decide)
  rw [if_neg h7] at h
  by_cases h8 : anyKw (pyLower text) coursesKws = true
  · rw [if_pos h8] at h; exact absurd h (by decide)
  rw [if_neg h8] at h
  by_cases h9 : anyKw (pyLower text) profileKws = true
  · rw [if_pos h9] at h; exact absurd h (by decide)
  rw [if_neg h9] at h
  by_cases h10 : anyKw (pyLower text) helpKws = true
  · rw [if_pos h10] at h; exact absurd h (by decide)
  rw [if_neg h10] at h
  by_cases h11 : anyKw (pyLower text) greetKws = true
  · rw [if_pos h11] at h; exact absurd h (by decide)
  rw [if_neg h11] at h
  by_cases h12 : anyKw (pyLower text) placementsKws = true
  · rw [if_pos h12] at h; exact absurd h (by decide)
  rw [if_neg h12] at h
  by_cases h13 : anyKw (pyLower text) eventsKws = true
  · rw [if_pos h13] at h; exact absurd h (by decide)
  rw [if_neg h13] at h
  by_cases h14 : anyKw (pyLower text) facultyKws = true
  · rw [if_pos h14] at h; exact absurd h (by decide)
  rw [if_neg h14] at h
  by_cases h15 : anyKw (pyLower text) cafeteriaKws = true
  · rw [if_pos h15] at h; exact absurd h (by decide)
  rw [if_neg h15] at h
  by_cases h16 : anyKw (pyLower text) cgpaCalcKws = true
  · exact h4 (by simp [anyKw, gradesKws, containsStr_gpa_of_cgpaKw _ h16])
  rw [if_neg h16] at h
  exact absurd h (by decide)

/-- C6 witness: even the text "calculate cgpa" does not classify as
`cgpa_calc`. -/
theorem classifier_never_cgpa_calc_witness :
    detect_intent "calculate cgpa" ≠ "cgpa_calc" :=
  classifier_never_cgpa_calc "calculate cgpa"

/-- C7: for an existing student, deleting a non-existent attendance
subject, a non-existent grade subject, or an exam subject matching no
exam entry returns success with the store (hence the record) entirely
unchanged. -/
theorem delete_missing_subject_noop (store : Store) (student_key subject : String)
    (s : Student) (hs : lookupKey (pyLower student_key) store.students = some s) :
    (containsKey subject s.attendance.subjects = false →
      deleteAttendance store student_key subject =
        .ok (store, "Attendance deleted for " ++ subject)) ∧
    (containsKey subject s.grades.current_semester = false →
      deleteGrade store student_key subject =
        .ok (store, "Grade deleted for " ++ subject)) ∧
    ((∀ e ∈ s.exams, (e.subject != subject) = true) →
      deleteExam store student_key subject =
        .ok (store, "Exam deleted for " ++ subject)) := by
  refine ⟨fun h => ?_, fun h => ?_, fun h => ?_⟩
  · simp only [deleteAttendance, hs]
    have hcond : ¬(containsKey subject s.attendance.subjects = true) := by simp [h]
    rw [if_neg hcond]
  · simp only [deleteGrade, hs]
    have hcond : ¬(containsKey subject s.grades.current_semester = true) := by simp [h]
    rw [if_neg hcond]
  · simp only [deleteExam, hs]
    rw [filter_id_of_all _ _ h]
    rw [show ({ s with exams := s.exams } : Student) = s from rfl]
    rw [upsertKey_self _ _ _ hs]

/-- C7 witness: on a concrete one-student store, all three deletes of the
absent subject "Chemistry" are successful no-ops. -/
theorem delete_missing_subject_noop_witness :
    deleteAttendance store1 "Ada Lovelace" "Chemistry" =
      .ok (store1, "Attendance deleted for " ++ "Chemistry") ∧
    deleteGrade store1 "Ada Lovelace" "Chemistry" =
      .ok (store1, "Grade deleted for " ++ "Chemistry") ∧
    deleteExam store1 "Ada Lovelace" "Chemistry" =
      .ok (store1, "Exam deleted for " ++ "Chemistry") :=
  ⟨(delete_missing_subject_noop store1 "Ada Lovelace" "Chemistry" studentA (by decide)).1
      (by decide),
   (delete_missing_subject_noop store1 "Ada Lovelace" "Chemistry" studentA (by decide)).2.1
      (by decide),
   (delete_missing_subject_noop store1 "Ada Lovelace" "Chemistry" studentA (by decide)).2.2
      (by decide)⟩

/-- C8: day resolution: "today" yields the current weekday, else
"tomorrow" yields the following weekday (mod 7), else the first literal
weekday name of `days` found in the text, defaulting to the current
weekday — with "today"/"tomorrow" taking precedence. -/
theorem resolve_day_rules (text : String) (today : Fin 7) :
    (containsStr (pyLower text) "today" = true →
      get_day_from_text text today = days.getD today.val "") ∧
    (containsStr (pyLower text) "today" = false →
      containsStr (pyLower text) "tomorrow" = true →
      get_day_from_text text today = days.getD ((today.val + 1) % 7) "") ∧
    (containsStr (pyLower text) "today" = false →
      containsStr (pyLower text) "tomorrow" = false →
      get_day_from_text text today =
        (days.find? (fun day => containsStr (pyLower text) day)).getD
          (days.getD today.val "")) := by
  refine ⟨fun h => ?_, fun h1 h2 => ?_, fun h1 h2 => ?_⟩
  · simp only [get_day_from_text]
    rw [if_pos h]
  · simp only [get_day_from_text]
    have hn : ¬(containsStr (pyLower text) "today" = true) := by simp [h1]
    rw [if_neg hn, if_pos h2]
  · simp only [get_day_from_text]
    have hn1 : ¬(containsStr (pyLower text) "today" = true) := by simp [h1]
    have hn2 : ¬(containsStr (pyLower text) "tomorrow" = true) := by simp [h2]
    rw [if_neg hn1, if_neg hn2]

/-- C8 witness: "today" on a Wednesday, "tomorrow" on a Sunday (wrapping
to Monday), and a literal "friday" with neither marker. -/
theorem resolve_day_rules_witness :
    get_day_from_text "is it today" 2 = days.getD (2 : Fin 7).val "" ∧
    get_day_from_text "see you tomorrow" 6 = days.getD (((6 : Fin 7).val + 1) % 7) "" ∧
    get_day_from_text "what about friday" 0 =
      (days.find? (fun day => containsStr (pyLower "what about friday") day)).getD
        (days.getD (0 : Fin 7).val "") :=
  ⟨(resolve_day_rules "is it today" 2).1 (by decide),
   (resolve_day_rules "see you tomorrow" 6).2.1 (by decide) (by decide),
   (resolve_day_rules "what about friday" 0).2.2 (by decide) (by decide)⟩

/-- C9: the attendance reply appends the low-attendance warning exactly
when `overall_percent < 75`, the commendation exactly when
`overall_percent >= 90` (the `< 75` branch is checked first, so the two
are mutually exclusive), and neither for 75 <= overall_percent < 90. -/
theorem attendance_reply_thresholds (s : Student) :
    (s.attendance.overall_percent < 75 →
      attendanceReply s = attendanceBase s ++ lowAttendanceWarning) ∧
    (s.attendance.overall_percent ≥ 90 →
      attendanceReply s = attendanceBase s ++ excellentAttendanceNote) ∧
    (75 ≤ s.attendance.overall_percent → s.attendance.overall_percent < 90 →
      attendanceReply s = attendanceBase s) := by
  refine ⟨fun h => ?_, fun h => ?_, fun h1 h2 => ?_⟩
  · simp only [attendanceReply]
    rw [if_pos h]
  · simp only [attendanceReply]
    rw [if_neg (by omega), if_pos h]
  · simp only [attendanceReply]
    rw [if_neg (by omega), if_neg (by omega)]

/-- C9 witness: overall 60 gets the warning, 95 the commendation, 80
neither. -/
theorem attendance_reply_thresholds_witness :
    attendanceReply studentLow = attendanceBase studentLow ++ lowAttendanceWarning ∧
    attendanceReply studentHigh = attendanceBase studentHigh ++ excellentAttendanceNote ∧
    attendanceReply studentMid = attendanceBase studentMid :=
  ⟨(attendance_reply_thresholds studentLow).1 (by decide),
   (attendance_reply_thresholds studentHigh).2.1 (by decide),
   (attendance_reply_thresholds studentMid).2.2 (by decide) (by decide)⟩

/-- C10: an unknown caller identifier yields an ordinary successful
apology reply, and a text classified `unknown` (for a known caller)
yields the successful fallback reply listing the supported topics; in
both cases the store (records and reference data) is returned unchanged
and no error is raised. -/
theorem query_failure_replies (store : Store) (text user : String) (today : Fin 7)
    (hour : Int) :
    (lookupKey (pyLower user) store.students = none →
      processVoice store text user today hour = .ok (store, sorryReply user)) ∧
    (∀ s, lookupKey (pyLower user) store.students = some s →
      detect_intent (pyLower text) = "unknown" →
      processVoice store text user today hour = .ok (store, fallbackReply)) := by
  constructor
  · intro h
    simp only [processVoice, h]
  · intro s hs hint
    simp only [processVoice, hs, hint]
    have n1 : ¬(("unknown" : String) = "attendance") := by decide
    have n2 : ¬(("unknown" : String) = "timetable") := by decide
    have n3 : ¬(("unknown" : String) = "exams") := by decide
    have n4 : ¬(("unknown" : String) = "grades") := by decide
    have n5 : ¬(("unknown" : String) = "library") := by decide
    have n6 : ¬(("unknown" : String) = "fees") := by decide
    have n7 : ¬(("unknown" : String) = "notices") := by decide
    have n8 : ¬(("unknown" : String) = "courses") := by decide
    have n9 : ¬(("unknown" : String) = "profile") := by decide
    have n10 : ¬(("unknown" : String) = "help") := by decide
    have n11 : ¬(("unknown" : String) = "greet") := by decide
    have n12 : ¬(("unknown" : String) = "placements") := by decide
    have n13 : ¬(("unknown" : String) = "events") := by decide
    have n14 : ¬(("unknown" : String) = "faculty") := by decide
    have n15 : ¬(("unknown" : String) = "cafeteria") := by decide
    have n16 : ¬(("unknown" : String) = "cgpa_calc") := by decide
    rw [if_neg n1, if_neg n2, if_neg n3, if_neg n4, if_neg n5, if_neg n6, if_neg n7,
      if_neg n8, if_neg n9, if_neg n10, if_neg n11, if_neg n12, if_neg n13, if_neg n14,
      if_neg n15, if_neg n16]

/-- C10 witness: an empty store with caller "bob" gets the apology; the
concrete one-student store with the keyword-free text "qqq" gets the
fallback reply. -/
theorem query_failure_replies_witness :
    processVoice storeEmpty "hello" "bob" 0 9 = .ok (storeEmpty, sorryReply "bob") ∧
    processVoice store1 "qqq" "ada lovelace" 0 9 = .ok (store1, fallbackReply) :=
  ⟨(query_failure_replies storeEmpty "hello" "bob" 0 9).1 (by decide),
   (query_failure_replies store1 "qqq" "ada lovelace" 0 9).2 studentA (by decide) (by decide)⟩

end CollegeVoice
